import Mathlib

/-!
# Verification of the streamtools FromEmail block (st/library/fromEmail.go)

A shallow embedding of the FromEmail block: the IMAP connection helper
`newIMAPClient`, the unread-fetch pipeline (`findUnreadEmails`, `getEmails`,
`fetchUnread`), the credential parser `parseAuthRules`, the `Run` control
loop, and the `idle` background watcher.  Network and server behaviour is
modelled by an explicit `Server` value holding the remote mailbox contents
together with failure-injection flags for the individual protocol calls.
-/

namespace FromEmailSpec

/-- One message as held by the remote IMAP server.  `internalDate` models the
message's INTERNALDATE by its year, the only component that
`time.Time.MarshalJSON` (used via `json.Marshal` on `emailMessage`) inspects
for failure; `seen` is the server-side read flag (`\Seen`). -/
structure MailMsg where
  uid : Nat
  seen : Bool
  internalDate : Int
  body : String
  deriving DecidableEq, Repr

/-- The remote mailbox as seen through the client's IMAP calls, with failure
injection for the two server round-trips made by the fetch pipeline:
`fetchHeadersFails` makes the `conn.Fetch(1:*, ...)` header sweep of
`findUnreadEmails` fail, `uidFetchFails` makes the `client.UIDFetch` of
`getEmails` fail. -/
structure Server where
  msgs : List MailMsg
  fetchHeadersFails : Bool
  uidFetchFails : Bool
  deriving DecidableEq, Repr

/-- Go struct `emailMessage` (fromEmail.go lines 31–34): `Received` is the
`time.Time` field (modelled by its year, see `MailMsg.internalDate`), `Body`
the raw message text. -/
structure emailMessage where
  Received : Int
  Body : String
  deriving DecidableEq, Repr

/-- `json.Marshal` applied to an `emailMessage` (fromEmail.go line 153).  Go's
`time.Time.MarshalJSON` returns an error exactly when the year lies outside
[0, 9999]; marshalling the `string` field cannot fail.  The serialized payload
is abstracted by the message value itself (the claims only concern which
events are emitted and in what order, never the byte encoding). -/
def marshalEmail (m : emailMessage) : Option emailMessage :=
  if 0 ≤ m.Received ∧ m.Received ≤ 9999 then some m else none

/-- fromEmail.go lines 186–196.  `findUnreadEmails` adds `1:*` to a fresh
sequence set and fetches `RFC822.HEADER`/`UID` for it: the "sweep" returns
every message of the mailbox (no unread filter), or an error when the fetch
round-trip fails. -/
def findUnreadEmails (s : Server) : Except Unit (List MailMsg) :=
  if s.fetchHeadersFails then .error () else .ok s.msgs

/-- fromEmail.go lines 164–184.  `getEmails` collects the UIDs of `cmd.Data`
into a sequence set, issues one `UIDFetch` of
`INTERNALDATE`/`BODY[]`/`UID`/`RFC822.HEADER` for that set, and converts each
returned record into an `emailMessage`.  The first component of the result is
the converted records in server response order; the second is the mailbox
contents after the fetch: per RFC 3501 a `BODY[]` fetch sets `\Seen` unless
the mailbox was selected read-only, which `ro` records (the `readonly`
argument of the `conn.Select` that produced the session, line 53). -/
def getEmails (ro : Bool) (s : Server) (cmdData : List MailMsg) :
    Except Unit (List emailMessage × List MailMsg) :=
  let uids := cmdData.map MailMsg.uid
  if s.uidFetchFails then .error ()
  else
    let fetched := s.msgs.filter (fun m => m.uid ∈ uids)
    let emails := fetched.map (fun m => emailMessage.mk m.internalDate m.body)
    let post :=
      if ro then s.msgs
      else s.msgs.map (fun m => if m.uid ∈ uids then
        MailMsg.mk m.uid true m.internalDate m.body else m)
    .ok (emails, post)

/-- Result of one `fetchUnread` call: the payloads sent on `e.out` in order,
the mailbox contents afterwards, and the returned error (`some ()` iff the
Go function returned a non-nil error). -/
structure FetchResult where
  emitted : List emailMessage
  postMsgs : List MailMsg
  err : Option Unit
  deriving DecidableEq, Repr

/-- fromEmail.go lines 139–162.  `fetchUnread` runs `findUnreadEmails`, then
`getEmails`, returning the error on either failure (nothing emitted); on
success it marshals each record, skipping (with `continue`) any record whose
serialization fails, sends the rest on `e.out` in order, and returns nil. -/
def fetchUnread (ro : Bool) (s : Server) : FetchResult :=
  match findUnreadEmails s with
  | .error _ => ⟨[], s.msgs, some ()⟩
  | .ok cmdData =>
    match getEmails ro s cmdData with
    | .error _ => ⟨[], s.msgs, some ()⟩
    | .ok (emails, post) => ⟨emails.filterMap marshalEmail, post, none⟩

/-- The records retrieved by step 3 of `fetchUnread` on a failure-free run:
the messages matching the UID set collected from the header sweep, converted
in server response order (the list `emails` of `getEmails`). -/
def retrievedEmails (s : Server) : List emailMessage :=
  (s.msgs.filter (fun m => m.uid ∈ s.msgs.map MailMsg.uid)).map
    (fun m => emailMessage.mk m.internalDate m.body)

example :
    fetchUnread true (Server.mk [MailMsg.mk 1 true 2020 "b"] false false) =
      FetchResult.mk [emailMessage.mk 2020 "b"] [MailMsg.mk 1 true 2020 "b"] none := by
  decide

example :
    fetchUnread true (Server.mk [MailMsg.mk 1 false 10000 "b"] false false) =
      FetchResult.mk [] [MailMsg.mk 1 false 10000 "b"] none := by
  decide

/-! ## Connection manager: `newIMAPClient` -/

/-- How far construction of an `imap.Client` handle got: after a successful
`DialTLS`, after a successful `Login`, after a successful `Select`. -/
inductive ConnStage where
  | connected
  | authenticated
  | selected
  deriving DecidableEq, Repr

/-- A (non-nil) `*imap.Client` handle.  `sid` identifies the underlying
network connection; `readonly` is the mode of the mailbox `Select` (true in
this program, fromEmail.go line 53). -/
structure ImapClient where
  sid : Nat
  stage : ConnStage
  readonly : Bool
  deriving DecidableEq, Repr

/-- Failure injection for the three stages of `newIMAPClient`: the `DialTLS`,
`Login` and `Select` round-trips. -/
structure ImapEnv where
  dialFails : Bool
  loginFails : Bool
  selectFails : Bool
  deriving DecidableEq, Repr

/-- fromEmail.go lines 42–59.  `newIMAPClient` dials, logs in, and selects the
mailbox read-only, returning `(conn, err)` after the first failing stage: on a
dial failure the handle is nil (`none`), on a login or select failure the
partially constructed handle reached so far is returned together with the
error (`return conn, err`).  The error is modelled by the name of the failing
stage.  `sid` is the identity of the connection the dial opens; the string
arguments mirror the Go parameters (the network abstraction makes the outcome
depend only on `env`). -/
def newIMAPClient (env : ImapEnv) (sid : Nat)
    (_host _username _password _mailbox : String) : Option ImapClient × Option String :=
  if env.dialFails then (none, some "dial")
  else if env.loginFails then (some (ImapClient.mk sid ConnStage.connected false), some "login")
  else if env.selectFails then
    (some (ImapClient.mk sid ConnStage.authenticated false), some "select")
  else (some (ImapClient.mk sid ConnStage.selected true), none)

/-! ## Credential parsing: `parseAuthRules` -/

/-- A JSON value as found in a rule payload: a string, or anything else
(`other` covers numbers, objects, null, …, which all make
`ParseRequiredString` fail). -/
inductive JVal where
  | str (s : String)
  | other
  deriving DecidableEq, Repr

/-- A configuration rule payload: a JSON object, as key/value pairs. -/
def Rule : Type := List (String × JVal)

/-- Modelled from the spec: `util.ParseRequiredString` is not under `src/`
(only its caller `parseAuthRules` is).  Per §6 of the spec, a missing or
non-string value for a required field is a validation failure identified by
field name; on success the field's string value is returned. -/
def ParseRequiredString (msg : Rule) (key : String) : Except String String :=
  match List.lookup key msg with
  | some (JVal.str s) => .ok s
  | _ => .error key

/-- The per-block state of the `FromEmail` struct that the embedded code
touches: the four credential strings and the `client` pointer (`none` = nil,
its Go zero value). -/
structure FromEmail where
  host : String
  username : String
  password : String
  mailbox : String
  client : Option ImapClient
  deriving DecidableEq, Repr

/-- fromEmail.go lines 38–40.  `NewFromEmail` configures the block for GMail:
`host = "imap.gmail.com"`, `mailbox = "INBOX"`; the remaining fields take
their Go zero values (empty strings, nil client). -/
def NewFromEmail : FromEmail :=
  FromEmail.mk "imap.gmail.com" "" "" "INBOX" none

/-- fromEmail.go lines 209–232.  `parseAuthRules` parses the four required
fields in order, assigning each into the receiver as it goes and returning at
the first failure (so fields parsed before the failure are already stored).
Line 226 assigns the value of the `"Mailbox"` field into `e.password` — the
source really writes `e.password, err = util.ParseRequiredString(msgI,
"Mailbox")` — and `e.mailbox` is never assigned. -/
def parseAuthRules (e : FromEmail) (msg : Rule) : FromEmail × Option String :=
  match ParseRequiredString msg "Host" with
  | .error err => (e, some err)
  | .ok h =>
    let e1 := FromEmail.mk h e.username e.password e.mailbox e.client
    match ParseRequiredString msg "Username" with
    | .error err => (e1, some err)
    | .ok u =>
      let e2 := FromEmail.mk h u e.password e.mailbox e.client
      match ParseRequiredString msg "Password" with
      | .error err => (e2, some err)
      | .ok p =>
        let e3 := FromEmail.mk h u p e.mailbox e.client
        match ParseRequiredString msg "Mailbox" with
        | .error err => (e3, some err)
        | .ok mb => (FromEmail.mk h u mb e.mailbox e.client, none)

/-- The first of the four required fields that fails validation, in the order
`parseAuthRules` checks them; `none` when the rule is valid. -/
def firstMissingField (msg : Rule) : Option String :=
  match ParseRequiredString msg "Host" with
  | .error _ => some "Host"
  | .ok _ =>
    match ParseRequiredString msg "Username" with
    | .error _ => some "Username"
    | .ok _ =>
      match ParseRequiredString msg "Password" with
      | .error _ => some "Password"
      | .ok _ =>
        match ParseRequiredString msg "Mailbox" with
        | .error _ => some "Mailbox"
        | .ok _ => none

/-! ## The `Run` control loop -/

/-- State of one `Run` loop instance beyond the `FromEmail` struct itself:
`openConns` is the set (as a list, newest first) of connection ids opened by
`newIMAPClient` dials and not yet closed; `defers` are the receivers captured
by the `defer e.client.Close(true)` statements accumulated so far (Go
evaluates the receiver when the `defer` statement executes, so each captures
the client just opened); `nextSid` numbers the next dial. -/
structure BlockState where
  e : FromEmail
  openConns : List Nat
  defers : List Nat
  nextSid : Nat
  deriving DecidableEq, Repr

/-- The block state in which `Run` starts: a fresh `NewFromEmail` block, no
connection ever opened. -/
def initialBlock : BlockState :=
  BlockState.mk NewFromEmail [] [] 0

/-- One stimulus of the `Run` select loop: a rule on `inrule` (together with
the behaviour of the IMAP server it connects to), a signal on `quit`, or a
query on `queryrule`. -/
inductive Stimulus where
  | inrule (msg : Rule) (env : ImapEnv) (srv : Server)
  | quit
  | query

/-- Observable output of one `Run` loop iteration: errors reported via
`e.Error`, payloads sent on `e.out`, the reply sent on a query's response
channel, whether the iteration panicked (nil-pointer dereference), and
whether `Run` returned. -/
structure StepOut where
  reportedErrors : Nat
  emissions : List emailMessage
  queryResp : Option (List (String × String))
  crashed : Bool
  returned : Bool
  deriving DecidableEq, Repr

/-- fromEmail.go lines 235–279, one iteration of the `Run` select loop.

* `inrule` (lines 240–264): `parseAuthRules`, on error report and `continue`;
  then `e.client, err = newIMAPClient(...)` — the handle is assigned before
  the error check, and the previous client is neither closed nor has its
  idle goroutine stopped; on error report and `continue`; then
  `defer e.client.Close(true)`; then the initial `fetchUnread` (on error
  report and `continue`); then `go e.idle()` (the spawned watcher blocks
  immediately, see `IdleStep`, and never touches the state again).
* `quit` (lines 266–268): `e.client.Close(true)` — a method call on a nil
  `*imap.Client` dereferences the nil pointer (its body reads fields of the
  receiver), modelled as `crashed`; otherwise the current connection closes,
  `Run` returns, and the accumulated deferred `Close` calls run (`Close` on
  an already-closed connection is a no-op for the open-connection set).
* `queryrule` (lines 269–276): reply with the four current fields. -/
def runStep (b : BlockState) (st : Stimulus) : BlockState × StepOut :=
  match st with
  | .query =>
    (b, StepOut.mk 0 [] (some [("Host", b.e.host), ("Username", b.e.username),
      ("Password", b.e.password), ("Mailbox", b.e.mailbox)]) false false)
  | .quit =>
    match b.e.client with
    | none => (b, StepOut.mk 0 [] none true false)
    | some c =>
      let afterClose := b.openConns.filter (fun sid => sid ≠ c.sid)
      let afterDefers := afterClose.filter (fun sid => ¬ sid ∈ b.defers)
      (BlockState.mk b.e afterDefers [] b.nextSid, StepOut.mk 0 [] none false true)
  | .inrule msg env srv =>
    match parseAuthRules b.e msg with
    | (e1, some _) =>
      (BlockState.mk e1 b.openConns b.defers b.nextSid, StepOut.mk 1 [] none false false)
    | (e1, none) =>
      let sid := b.nextSid
      let res := newIMAPClient env sid e1.host e1.username e1.password e1.mailbox
      let opened := if env.dialFails then b.openConns else sid :: b.openConns
      let e2 := FromEmail.mk e1.host e1.username e1.password e1.mailbox res.1
      match res.2 with
      | some _ =>
        (BlockState.mk e2 opened b.defers (sid + 1), StepOut.mk 1 [] none false false)
      | none =>
        let defers1 := sid :: b.defers
        let fr := fetchUnread true srv
        match fr.err with
        | some _ =>
          (BlockState.mk e2 opened defers1 (sid + 1), StepOut.mk 1 [] none false false)
        | none =>
          (BlockState.mk e2 opened defers1 (sid + 1),
            StepOut.mk 0 fr.emitted none false false)

/-! ## The `idle` watcher: select-loop body -/

/-- Environment of one iteration of the `idle` select loop (fromEmail.go
lines 76–129): failure injection for the `client.Recv(0)`,
`client.IdleTerm()` and re-arming `client.Idle()` calls, whether
`len(e.client.Data) > 0` when the pipe is checked, and the server state a
fetch would see. -/
structure IdleEnv where
  recvFails : Bool
  idleTermFails : Bool
  rearmFails : Bool
  dataAvailable : Bool
  server : Server
  deriving DecidableEq, Repr

/-- The two wake sources of the select: a send on `poll` (a sleep goroutine's
tick) and a tick on `reset.C`. -/
inductive LoopEvent where
  | pollTick
  | resetTick
  deriving DecidableEq, Repr

/-- Where the watcher goroutine goes after one loop iteration: back to the
select, or out of `idle` (every error path reports and returns). -/
inductive LoopNext where
  | looping
  | terminated
  deriving DecidableEq, Repr

/-- Observable outcome of one `idle` loop iteration: payloads sent on
`e.out`, whether `fetchUnread` was invoked, whether `sleep(poll)` spawned a
new poll goroutine, errors reported, and the continuation. -/
structure LoopOut where
  emissions : List emailMessage
  fetchRan : Bool
  sleeperSpawned : Bool
  reportedErrors : Nat
  next : LoopNext
  deriving DecidableEq, Repr

/-- fromEmail.go lines 76–129, the body of the `idle` select loop.

* `poll` arm (lines 79–114): `Recv(0)`, on error report + `sleep` + return;
  if data is pending: `IdleTerm` (error → report + `sleep` + return), then
  `fetchUnread` (error → report + `sleep` + return; its emissions have
  already been sent when the re-arm runs), then re-arm `Idle` (error →
  report + `sleep` + return); finally `sleep(poll)` and loop.
* `reset.C` arm (lines 116–127): `IdleTerm` then `Idle`, no fetch, no
  emission, no `sleep`; either error reports and returns. -/
def idleLoopStep (env : IdleEnv) : LoopEvent → LoopOut
  | .resetTick =>
    if env.idleTermFails then LoopOut.mk [] false false 1 .terminated
    else if env.rearmFails then LoopOut.mk [] false false 1 .terminated
    else LoopOut.mk [] false false 0 .looping
  | .pollTick =>
    if env.recvFails then LoopOut.mk [] false true 1 .terminated
    else if env.dataAvailable then
      if env.idleTermFails then LoopOut.mk [] false true 1 .terminated
      else
        let fr := fetchUnread true env.server
        match fr.err with
        | some _ => LoopOut.mk [] true true 1 .terminated
        | none =>
          if env.rearmFails then LoopOut.mk fr.emitted true true 1 .terminated
          else LoopOut.mk fr.emitted true true 0 .looping
    else LoopOut.mk [] false true 0 .looping

/-! ## The `idle` watcher: goroutine-level behaviour

`idle` (fromEmail.go lines 61–130) runs as its own goroutine.  Its local
channel `poll` is created with `make(chan uint)` — unbuffered — so a send on
it completes only jointly with a receive performed by a *different*
goroutine at the same moment.  The program's only receive on `poll` is the
select arm at line 79, in the `idle` goroutine itself; the goroutines spawned
by `sleep` (lines 132–137) only send.  The small-step system below has one
rule per way any involved goroutine can make progress; there is no rule for
the send `poll <- 0` at line 71 because no goroutine that could pair with it
ever receives on `poll`. -/

/-- Program counter of the `idle` goroutine: about to call the arming
`e.client.Idle()` (line 63), blocked at the send `poll <- 0` (line 71), about
to create the reset ticker (line 74), at the select loop (lines 76–128), or
returned. -/
inductive IdlePc where
  | armIdle
  | sendPoll0
  | mkTicker
  | selectLoop
  | exited
  deriving DecidableEq, Repr

/-- The goroutines involved in one `idle` run: the watcher's program counter,
the number of sleep goroutines currently blocked sending on `poll`, whether
the 20-minute reset ticker has been created, and the ticks buffered in its
channel. -/
structure IdleSys where
  pc : IdlePc
  sleepers : Nat
  tickerRunning : Bool
  pendingTicks : Nat
  deriving DecidableEq, Repr

/-- `idle` begins at the arming `Idle()` call with no sleep goroutines and no
ticker. -/
def idleInit : IdleSys := IdleSys.mk IdlePc.armIdle 0 false 0

/-- One step of any goroutine involved in `idle`.  Rules map to the source as
noted; the send at line 71 has no rule (see the section comment). -/
inductive IdleStep : IdleSys → IdleSys → Prop where
  | armOk (s : Nat) (t : Bool) (k : Nat) :
      IdleStep (IdleSys.mk .armIdle s t k) (IdleSys.mk .sendPoll0 s t k)
      -- line 63 succeeds, control reaches line 71
  | armErr (s : Nat) (t : Bool) (k : Nat) :
      IdleStep (IdleSys.mk .armIdle s t k) (IdleSys.mk .exited s t k)
      -- lines 64–67: report and return
  | mkTickerStep (s : Nat) (k : Nat) :
      IdleStep (IdleSys.mk .mkTicker s false k) (IdleSys.mk .selectLoop s true k)
      -- line 74: the ticker starts; control reaches the select
  | pollLoop (s : Nat) (t : Bool) (k : Nat) :
      IdleStep (IdleSys.mk .selectLoop (s + 1) t k) (IdleSys.mk .selectLoop (s + 1) t k)
      -- line 79: rendezvous with one sleeper's send; the body ends in
      -- `sleep(poll)` which spawns a replacement sleeper, then loops
  | pollExit (s : Nat) (t : Bool) (k : Nat) :
      IdleStep (IdleSys.mk .selectLoop (s + 1) t k) (IdleSys.mk .exited (s + 1) t k)
      -- line 79 rendezvous, then an error path: report, `sleep`, return
  | tickerFires (p : IdlePc) (s : Nat) (k : Nat) :
      IdleStep (IdleSys.mk p s true k) (IdleSys.mk p s true (k + 1))
      -- the runtime ticker deposits a tick on `reset.C`
  | resetLoop (s : Nat) (t : Bool) (k : Nat) :
      IdleStep (IdleSys.mk .selectLoop s t (k + 1)) (IdleSys.mk .selectLoop s t k)
      -- line 116: consume a tick; `IdleTerm` and `Idle` succeed, loop
  | resetExit (s : Nat) (t : Bool) (k : Nat) :
      IdleStep (IdleSys.mk .selectLoop s t (k + 1)) (IdleSys.mk .exited s t k)
      -- line 116: consume a tick; an error path reports and returns

/-- States reachable from the start of `idle`. -/
inductive IdleReach : IdleSys → Prop where
  | refl : IdleReach idleInit
  | tail (a b : IdleSys) : IdleReach a → IdleStep a b → IdleReach b

/-! ## Concrete instances used by the claim theorems -/

/-- An IMAP environment in which every protocol stage succeeds. -/
def envOK : ImapEnv := ImapEnv.mk false false false

/-- An IMAP environment in which the dial succeeds but `Login` fails. -/
def envLoginFail : ImapEnv := ImapEnv.mk false true false

/-- An empty mailbox with no injected failures. -/
def srvEmpty : Server := Server.mk [] false false

/-- One unread message with an in-range date. -/
def srvOne : Server := Server.mk [MailMsg.mk 1 false 2020 "a"] false false

/-- One unread message whose INTERNALDATE year 10000 makes `json.Marshal`
fail on the resulting `emailMessage` (`time.Time.MarshalJSON` rejects years
outside [0, 9999]). -/
def srvBadDate : Server := Server.mk [MailMsg.mk 1 false 10000 "late"] false false

/-- Two unread messages, the second with an unserializable date. -/
def srvTwo : Server :=
  Server.mk [MailMsg.mk 1 false 2020 "a", MailMsg.mk 2 false 10000 "bad"] false false

/-- A complete, valid rule. -/
def ruleC1 : Rule :=
  [("Host", JVal.str "imap.example.com"), ("Username", JVal.str "u"),
   ("Password", JVal.str "p"), ("Mailbox", JVal.str "INBOX2")]

/-- First of two valid rules applied in sequence. -/
def ruleR1 : Rule :=
  [("Host", JVal.str "h1"), ("Username", JVal.str "u1"),
   ("Password", JVal.str "p1"), ("Mailbox", JVal.str "m1")]

/-- Second of two valid rules applied in sequence. -/
def ruleR2 : Rule :=
  [("Host", JVal.str "h2"), ("Username", JVal.str "u2"),
   ("Password", JVal.str "p2"), ("Mailbox", JVal.str "m2")]

/-- A rule missing its `Password` field. -/
def ruleNoPw : Rule :=
  [("Host", JVal.str "h2"), ("Username", JVal.str "u2"), ("Mailbox", JVal.str "mb2")]

/-- A previously installed, fully opened session handle. -/
def priorClient : ImapClient := ImapClient.mk 0 ConnStage.selected true

/-- A block that already holds credentials and an open session. -/
def e5 : FromEmail := FromEmail.mk "h0" "u0" "p0" "mb0" (some priorClient)

/-- Run-loop state around `e5`: connection 0 open, its deferred close
registered, next dial numbered 1. -/
def b5 : BlockState := BlockState.mk e5 [0] [0] 1

/-- The block state `parseAuthRules` leaves behind on `b5.e` when the rule
`ruleNoPw` fails at `Password`: `Host` and `Username` already overwritten. -/
def e5' : FromEmail := FromEmail.mk "h2" "u2" "p0" "mb0" (some priorClient)

/-- What `parseAuthRules` makes of `ruleR1` on a fresh block: note the rule's
Mailbox value lands in `password` and `mailbox` keeps the factory default. -/
def eR1 : FromEmail := FromEmail.mk "h1" "u1" "m1" "INBOX" none

/-- An idle-loop environment in which nothing fails and no data is pending. -/
def idleEnv0 : IdleEnv := IdleEnv.mk false false false false srvEmpty

/-! ## Helper lemmas -/

/-- `marshalEmail` is the identity where it succeeds. -/
theorem marshalEmail_some_eq {m m' : emailMessage} (h : marshalEmail m = some m') :
    m' = m := by
  unfold marshalEmail at h
  split at h
  · exact (Option.some.injEq _ _ ▸ h).symm
  · exact absurd h (by simp)

/-- A non-failing `marshalEmail` returns its argument. -/
theorem marshalEmail_ne_none {m : emailMessage} (h : marshalEmail m ≠ none) :
    marshalEmail m = some m := by
  cases hm : marshalEmail m with
  | none => exact absurd hm h
  | some m' => rw [marshalEmail_some_eq hm]

/-- On a failure-free run, `fetchUnread` emits exactly the serializable
retrieved records in order and leaves the mailbox unchanged. -/
theorem fetchUnread_ok_eq (s : Server) (h1 : s.fetchHeadersFails = false)
    (h2 : s.uidFetchFails = false) :
    fetchUnread true s =
      FetchResult.mk ((retrievedEmails s).filterMap marshalEmail) s.msgs none := by
  simp [fetchUnread, findUnreadEmails, getEmails, retrievedEmails, h1, h2]

/-- The error value of `ParseRequiredString` is the field name it was asked
for. -/
theorem ParseRequiredString_error_eq {msg : Rule} {k a : String}
    (h : ParseRequiredString msg k = .error a) : a = k := by
  unfold ParseRequiredString at h
  rcases hl : List.lookup k msg with _ | v
  · rw [hl] at h
    exact (Except.error.injEq _ _ ▸ h).symm
  · rw [hl] at h
    cases v with
    | str s => simp at h
    | other => exact (Except.error.injEq _ _ ▸ h).symm

/-- `parseAuthRules` never writes the `mailbox` or `client` fields. -/
theorem parseAuthRules_mailbox_client (e : FromEmail) (msg : Rule) :
    (parseAuthRules e msg).1.mailbox = e.mailbox
    ∧ (parseAuthRules e msg).1.client = e.client := by
  unfold parseAuthRules
  rcases ParseRequiredString msg "Host" with _ | h
  · simp
  · rcases ParseRequiredString msg "Username" with _ | u
    · simp
    · rcases ParseRequiredString msg "Password" with _ | p
      · simp
      · rcases ParseRequiredString msg "Mailbox" with _ | mb <;> simp

/-- When `parseAuthRules` fails, the reported field is the first of the four
required fields that fails validation. -/
theorem parseAuthRules_fail_first {e : FromEmail} {msg : Rule} {e1 : FromEmail}
    {err : String} (h : parseAuthRules e msg = (e1, some err)) :
    firstMissingField msg = some err := by
  unfold parseAuthRules at h
  unfold firstMissingField
  rcases hH : ParseRequiredString msg "Host" with aH | vH
  · rw [hH] at h
    simp only [Prod.mk.injEq, Option.some.injEq] at h
    rw [← h.2, ParseRequiredString_error_eq hH]
  · rw [hH] at h
    rcases hU : ParseRequiredString msg "Username" with aU | vU
    · rw [hU] at h
      simp only [Prod.mk.injEq, Option.some.injEq] at h
      rw [← h.2, ParseRequiredString_error_eq hU]
    · rw [hU] at h
      rcases hP : ParseRequiredString msg "Password" with aP | vP
      · rw [hP] at h
        simp only [Prod.mk.injEq, Option.some.injEq] at h
        rw [← h.2, ParseRequiredString_error_eq hP]
      · rw [hP] at h
        rcases hM : ParseRequiredString msg "Mailbox" with aM | vM
        · rw [hM] at h
          simp only [Prod.mk.injEq, Option.some.injEq] at h
          rw [← h.2, ParseRequiredString_error_eq hM]
        · rw [hM] at h
          simp at h

/-! ## Claim theorems -/

/-- Claim C1 (code bug): on a fresh block, the valid rule `ruleC1` (Host
`imap.example.com`, Username `u`, Password `p`, Mailbox `INBOX2`) passes
validation, yet the stored snapshot and the query response carry the rule's
Mailbox value under `Password` and the factory default `INBOX` under
`Mailbox` — line 226 of fromEmail.go parses the `"Mailbox"` field into
`e.password` and `e.mailbox` is never assigned. -/
theorem C1_password_mailbox_swap :
    (parseAuthRules NewFromEmail ruleC1).2 = none
    ∧ (runStep initialBlock (Stimulus.inrule ruleC1 envOK srvEmpty)).1.e =
        FromEmail.mk "imap.example.com" "u" "INBOX2" "INBOX"
          (some (ImapClient.mk 0 ConnStage.selected true))
    ∧ (runStep (runStep initialBlock (Stimulus.inrule ruleC1 envOK srvEmpty)).1
        Stimulus.query).2.queryResp =
        some [("Host", "imap.example.com"), ("Username", "u"),
          ("Password", "INBOX2"), ("Mailbox", "INBOX")] := by
  decide

/-- Claim C2 (code bug): applying the valid rules `ruleR1` then `ruleR2` with
both opens succeeding leaves both connections open — `Run` never closes the
previous client when a rule arrives (the `defer e.client.Close(true)` calls
only run when `Run` returns), so after R2's `open` succeeds two sessions are
live, not one. -/
theorem C2_double_open :
    ((runStep initialBlock (Stimulus.inrule ruleR1 envOK srvEmpty)).1.openConns = [0])
    ∧ (runStep (runStep initialBlock (Stimulus.inrule ruleR1 envOK srvEmpty)).1
        (Stimulus.inrule ruleR2 envOK srvEmpty)).1.openConns = [1, 0]
    ∧ (runStep (runStep initialBlock (Stimulus.inrule ruleR1 envOK srvEmpty)).1
        (Stimulus.inrule ruleR2 envOK srvEmpty)).1.e.client =
        some (ImapClient.mk 1 ConnStage.selected true) := by
  decide

/-- Claim C10 (code bug): a quit signal received before any rule was ever
applied finds `e.client` nil (its factory value) and the quit branch's
unconditional `e.client.Close(true)` dereferences the nil handle — the loop
crashes instead of closing the (absent) session and returning cleanly. -/
theorem C10_quit_nil_crash :
    initialBlock.e.client = none
    ∧ (runStep initialBlock Stimulus.quit).2.crashed = true
    ∧ (runStep initialBlock Stimulus.quit).2.returned = false := by
  decide

/-- Claim C3, counterexample: it is not the case that every event emitted by
a failure-free `fetchUnread` corresponds to a message the server reported as
unread — a mailbox whose single message is already seen still yields an
event, because the header sweep fetches `1:*` unfiltered. -/
theorem C3_counterexample :
    ¬ (∀ s : Server, s.fetchHeadersFails = false → s.uidFetchFails = false →
        ∀ ev ∈ (fetchUnread true s).emitted,
          ∃ m ∈ s.msgs, m.seen = false ∧ ev.Received = m.internalDate
            ∧ ev.Body = m.body) := by
  intro h
  have h2 := h (Server.mk [MailMsg.mk 1 true 2020 "b"] false false) rfl rfl
    (emailMessage.mk 2020 "b") (by decide)
  exact absurd h2 (by decide)

/-- Claim C3 as amended: every MailEvent emitted by a failure-free
`fetchUnread` corresponds to a message the server reported in the unfiltered
header sweep at fetch time (all messages, seen or not), and the fetch leaves
every message's read state unchanged (the mailbox was selected read-only). -/
theorem C3_sweep_correspondence (s : Server) (h1 : s.fetchHeadersFails = false)
    (h2 : s.uidFetchFails = false) :
    (∀ ev ∈ (fetchUnread true s).emitted,
      ∃ m ∈ s.msgs, ev.Received = m.internalDate ∧ ev.Body = m.body)
    ∧ (fetchUnread true s).postMsgs = s.msgs := by
  rw [fetchUnread_ok_eq s h1 h2]
  refine ⟨?_, rfl⟩
  intro ev hev
  simp only [List.mem_filterMap] at hev
  obtain ⟨a, ha, hma⟩ := hev
  rw [marshalEmail_some_eq hma]
  unfold retrievedEmails at ha
  simp only [List.mem_map] at ha
  obtain ⟨m, hm, rfl⟩ := ha
  exact ⟨m, (List.mem_filter.mp hm).1, rfl, rfl⟩

/-- Claim C3, witness for the amended theorem at a one-message mailbox. -/
theorem C3_sweep_correspondence_witness :
    (∀ ev ∈ (fetchUnread true srvOne).emitted,
      ∃ m ∈ srvOne.msgs, ev.Received = m.internalDate ∧ ev.Body = m.body)
    ∧ (fetchUnread true srvOne).postMsgs = srvOne.msgs :=
  C3_sweep_correspondence srvOne rfl rfl

/-- Claim C4, counterexample: a failure-free fetch of a mailbox whose single
message carries INTERNALDATE year 10000 returns success with zero events,
although the header sweep reported one identifier and one record was
retrieved — "one event per retrieved record, never fewer unless an error is
returned" fails when serialization of a record fails. -/
theorem C4_counterexample :
    (fetchUnread true srvBadDate).err = none
    ∧ (fetchUnread true srvBadDate).emitted = []
    ∧ (retrievedEmails srvBadDate).length = 1
    ∧ srvBadDate.msgs.length = 1 := by
  decide

/-- Claim C4 as amended: a failure at the header sweep or at the batched
retrieval makes `fetchUnread` return an error with zero events; when neither
fails it returns success and emits, in server response order, one event per
retrieved record **whose serialization succeeds** (an unserializable record
is dropped without an error), and never more events than the number of
identifiers the header sweep returned. -/
theorem C4_all_or_nothing (s : Server) :
    ((s.fetchHeadersFails = true ∨ s.uidFetchFails = true) →
      (fetchUnread true s).err = some () ∧ (fetchUnread true s).emitted = [])
    ∧ (s.fetchHeadersFails = false → s.uidFetchFails = false →
      (fetchUnread true s).err = none
      ∧ (fetchUnread true s).emitted = (retrievedEmails s).filterMap marshalEmail
      ∧ (fetchUnread true s).emitted.length ≤ s.msgs.length) := by
  constructor
  · intro hfail
    rcases hfail with hf | hf
    · simp [fetchUnread, findUnreadEmails, hf]
    · cases hh : s.fetchHeadersFails with
      | true => simp [fetchUnread, findUnreadEmails, hh]
      | false => simp [fetchUnread, findUnreadEmails, getEmails, hh, hf]
  · intro h1 h2
    rw [fetchUnread_ok_eq s h1 h2]
    refine ⟨rfl, rfl, ?_⟩
    calc ((retrievedEmails s).filterMap marshalEmail).length
        ≤ (retrievedEmails s).length := List.length_filterMap_le _ _
      _ ≤ s.msgs.length := by
          unfold retrievedEmails
          rw [List.length_map]
          exact List.length_filter_le _ _

/-- Claim C4, witness for the amended theorem at the bad-date mailbox: no
error, the unserializable record dropped, count within the sweep's bound. -/
theorem C4_all_or_nothing_witness :
    (fetchUnread true srvBadDate).err = none
    ∧ (fetchUnread true srvBadDate).emitted =
        (retrievedEmails srvBadDate).filterMap marshalEmail
    ∧ (fetchUnread true srvBadDate).emitted.length ≤ srvBadDate.msgs.length :=
  (C4_all_or_nothing srvBadDate).2 rfl rfl

/-- Claim C5, counterexample: on the block `e5` (snapshot h0/u0/p0/mb0), the
rule `ruleNoPw` missing its `Password` field fails validation naming
`Password` — but the stored snapshot is *not* left as it was: `Host` (and
`Username`) were already overwritten before the failure, because
`parseAuthRules` assigns field by field. -/
theorem C5_counterexample :
    (parseAuthRules e5 ruleNoPw).2 = some "Password"
    ∧ (parseAuthRules e5 ruleNoPw).1 = e5'
    ∧ e5'.host ≠ e5.host := by
  decide

/-- Claim C5 as amended: when a rule fails validation the error names the
first offending field (in the order Host, Username, Password, Mailbox), no
session is opened, the prior session handle is untouched, the `mailbox`
field is untouched, nothing is emitted — but fields validated before the
failing one have already been overwritten with the rule's values. -/
theorem C5_validation_failure (b : BlockState) (msg : Rule) (env : ImapEnv)
    (srv : Server) (e1 : FromEmail) (err : String)
    (h : parseAuthRules b.e msg = (e1, some err)) :
    firstMissingField msg = some err
    ∧ e1.client = b.e.client
    ∧ e1.mailbox = b.e.mailbox
    ∧ (runStep b (Stimulus.inrule msg env srv)).1 =
        BlockState.mk e1 b.openConns b.defers b.nextSid
    ∧ (runStep b (Stimulus.inrule msg env srv)).2.emissions = []
    ∧ (runStep b (Stimulus.inrule msg env srv)).2.reportedErrors = 1 := by
  have hmc := parseAuthRules_mailbox_client b.e msg
  rw [h] at hmc
  have hstep : runStep b (Stimulus.inrule msg env srv) =
      (BlockState.mk e1 b.openConns b.defers b.nextSid,
        StepOut.mk 1 [] none false false) := by
    simp only [runStep, h]
  exact ⟨parseAuthRules_fail_first h, hmc.2, hmc.1,
    by rw [hstep], by rw [hstep], by rw [hstep]⟩

/-- Claim C5, witness: the amended theorem applied to `b5` and `ruleNoPw`. -/
theorem C5_validation_failure_witness :
    firstMissingField ruleNoPw = some "Password"
    ∧ e5'.client = b5.e.client
    ∧ e5'.mailbox = b5.e.mailbox
    ∧ (runStep b5 (Stimulus.inrule ruleNoPw envOK srvEmpty)).1 =
        BlockState.mk e5' b5.openConns b5.defers b5.nextSid
    ∧ (runStep b5 (Stimulus.inrule ruleNoPw envOK srvEmpty)).2.emissions = []
    ∧ (runStep b5 (Stimulus.inrule ruleNoPw envOK srvEmpty)).2.reportedErrors = 1 :=
  C5_validation_failure b5 ruleNoPw envOK srvEmpty e5' "Password" (by decide)

/-- Claim C6, counterexample: with a successful dial but failing `Login`,
`newIMAPClient` returns the error *together with* the partially constructed
(dialed, unauthenticated) handle — `return conn, err` — and `Run` installs
that handle into `e.client` before checking the error. -/
theorem C6_counterexample :
    (newIMAPClient envLoginFail 0 "h" "u" "p" "m").2 = some "login"
    ∧ (newIMAPClient envLoginFail 0 "h" "u" "p" "m").1 =
        some (ImapClient.mk 0 ConnStage.connected false)
    ∧ (runStep initialBlock (Stimulus.inrule ruleR1 envLoginFail srvEmpty)).1.e.client =
        some (ImapClient.mk 0 ConnStage.connected false) := by
  decide

/-- Claim C6 as amended: when `open` fails, the handle returned alongside the
error is nil for a dial failure and never a fully opened (mailbox-selected)
session for the later stages; `Run` installs whatever handle was returned
into `e.client`, but performs no fetch with it and registers no deferred
close for it. -/
theorem C6_failed_open_handle (env : ImapEnv) (b : BlockState) (msg : Rule)
    (srv : Server) (e1 : FromEmail)
    (hp : parseAuthRules b.e msg = (e1, none))
    (herr : (newIMAPClient env b.nextSid e1.host e1.username e1.password e1.mailbox).2 ≠ none) :
    (env.dialFails = true →
      (newIMAPClient env b.nextSid e1.host e1.username e1.password e1.mailbox).1 = none)
    ∧ (∀ c, (newIMAPClient env b.nextSid e1.host e1.username e1.password e1.mailbox).1 = some c →
        c.stage ≠ ConnStage.selected)
    ∧ (runStep b (Stimulus.inrule msg env srv)).1.e.client =
        (newIMAPClient env b.nextSid e1.host e1.username e1.password e1.mailbox).1
    ∧ (runStep b (Stimulus.inrule msg env srv)).2.emissions = []
    ∧ (runStep b (Stimulus.inrule msg env srv)).1.defers = b.defers := by
  rcases env with ⟨d, l, se⟩
  have hfst : (ImapEnv.mk d l se).dialFails = true →
      (newIMAPClient (ImapEnv.mk d l se) b.nextSid
        e1.host e1.username e1.password e1.mailbox).1 = none := by
    intro hd
    simp only [ImapEnv.dialFails] at hd
    simp [newIMAPClient, hd]
  have hstage : ∀ c,
      (newIMAPClient (ImapEnv.mk d l se) b.nextSid
        e1.host e1.username e1.password e1.mailbox).1 = some c →
      c.stage ≠ ConnStage.selected := by
    intro c hc hsel
    cases d <;> cases l <;> cases se <;> simp_all [newIMAPClient] <;>
      (subst hc; simp at hsel)
  cases hnc : newIMAPClient (ImapEnv.mk d l se) b.nextSid
      e1.host e1.username e1.password e1.mailbox with
  | mk copt oerr =>
    cases oerr with
    | none =>
      rw [hnc] at herr
      exact absurd rfl herr
    | some er =>
      rw [hnc] at hfst hstage
      have hstep : runStep b (Stimulus.inrule msg (ImapEnv.mk d l se) srv) =
          (BlockState.mk (FromEmail.mk e1.host e1.username e1.password e1.mailbox copt)
            (if (ImapEnv.mk d l se).dialFails then b.openConns
              else b.nextSid :: b.openConns)
            b.defers (b.nextSid + 1),
           StepOut.mk 1 [] none false false) := by
        simp only [runStep, hp, hnc]
      refine ⟨hfst, hstage, ?_, ?_, ?_⟩ <;> simp [hstep]

/-- Claim C6, witness: the amended theorem at a failing `Login` on a fresh
block. -/
theorem C6_failed_open_handle_witness :
    (runStep initialBlock (Stimulus.inrule ruleR1 envLoginFail srvEmpty)).1.e.client =
      (newIMAPClient envLoginFail initialBlock.nextSid
        eR1.host eR1.username eR1.password eR1.mailbox).1
    ∧ (runStep initialBlock (Stimulus.inrule ruleR1 envLoginFail srvEmpty)).2.emissions = []
    ∧ (runStep initialBlock (Stimulus.inrule ruleR1 envLoginFail srvEmpty)).1.defers =
        initialBlock.defers :=
  ⟨(C6_failed_open_handle envLoginFail initialBlock ruleR1 srvEmpty eR1
      (by decide) (by decide)).2.2.1,
   (C6_failed_open_handle envLoginFail initialBlock ruleR1 srvEmpty eR1
      (by decide) (by decide)).2.2.2.1,
   (C6_failed_open_handle envLoginFail initialBlock ruleR1 srvEmpty eR1
      (by decide) (by decide)).2.2.2.2⟩

/-- Claim C7 (confirmed): when neither fetch stage fails and one retrieved
record fails to serialize, `fetchUnread` still returns success, the failing
event is not emitted, and the emitted list is exactly the serializable
records in server response order — so every sibling that serializes is
emitted. -/
theorem C7_encoding_drop (s : Server) (m : emailMessage)
    (h1 : s.fetchHeadersFails = false) (h2 : s.uidFetchFails = false)
    (_hm : m ∈ retrievedEmails s) (hbad : marshalEmail m = none) :
    (fetchUnread true s).err = none
    ∧ m ∉ (fetchUnread true s).emitted
    ∧ (fetchUnread true s).emitted = (retrievedEmails s).filterMap marshalEmail
    ∧ ∀ m2 ∈ retrievedEmails s, marshalEmail m2 ≠ none →
        m2 ∈ (fetchUnread true s).emitted := by
  rw [fetchUnread_ok_eq s h1 h2]
  refine ⟨rfl, ?_, rfl, ?_⟩
  · intro hmem
    simp only [List.mem_filterMap] at hmem
    obtain ⟨a, _, hma⟩ := hmem
    obtain rfl := marshalEmail_some_eq hma
    rw [hbad] at hma
    cases hma
  · intro m2 hm2 hne
    exact List.mem_filterMap.mpr ⟨m2, hm2, marshalEmail_ne_none hne⟩

/-- Claim C7, witness: two-message fetch where the second record's date is
unserializable — success, second dropped, first still emitted. -/
theorem C7_encoding_drop_witness :
    (fetchUnread true srvTwo).err = none
    ∧ emailMessage.mk 10000 "bad" ∉ (fetchUnread true srvTwo).emitted
    ∧ emailMessage.mk 2020 "a" ∈ (fetchUnread true srvTwo).emitted :=
  ⟨(C7_encoding_drop srvTwo (emailMessage.mk 10000 "bad") rfl rfl
      (by decide) (by decide)).1,
   (C7_encoding_drop srvTwo (emailMessage.mk 10000 "bad") rfl rfl
      (by decide) (by decide)).2.1,
   (C7_encoding_drop srvTwo (emailMessage.mk 10000 "bad") rfl rfl
      (by decide) (by decide)).2.2.2 (emailMessage.mk 2020 "a")
      (by decide) (by decide)⟩

/-- Claim C8 (confirmed): the reset-tick arm of the `idle` select loop emits
no MailEvent and never invokes `fetchUnread`, for every environment; when
neither the `IdleTerm` nor the re-arming `Idle` fails, the watcher is back in
its waiting loop. -/
theorem C8_reset_keepalive (env : IdleEnv) :
    (idleLoopStep env LoopEvent.resetTick).emissions = []
    ∧ (idleLoopStep env LoopEvent.resetTick).fetchRan = false
    ∧ (env.idleTermFails = false → env.rearmFails = false →
        (idleLoopStep env LoopEvent.resetTick).next = LoopNext.looping) := by
  rcases env with ⟨r, it, ra, d, sv⟩
  cases it <;> cases ra <;> simp [idleLoopStep]

/-- Claim C8, witness: the failure-free environment re-arms with nothing
emitted and no fetch. -/
theorem C8_reset_keepalive_witness :
    (idleLoopStep idleEnv0 LoopEvent.resetTick).emissions = []
    ∧ (idleLoopStep idleEnv0 LoopEvent.resetTick).fetchRan = false
    ∧ (idleLoopStep idleEnv0 LoopEvent.resetTick).next = LoopNext.looping :=
  ⟨(C8_reset_keepalive idleEnv0).1, (C8_reset_keepalive idleEnv0).2.1,
   (C8_reset_keepalive idleEnv0).2.2 rfl rfl⟩

/-- Invariant of every state reachable in an `idle` run: no sleep goroutine
was ever spawned, the ticker never started, and the watcher is at the arming
call, blocked at the initial `poll <- 0` send, or has exited via the arming
error path — in particular the select loop is never reached. -/
theorem idleReach_blocked (s : IdleSys) (h : IdleReach s) :
    s.sleepers = 0 ∧ s.tickerRunning = false ∧ s.pendingTicks = 0
    ∧ (s.pc = IdlePc.armIdle ∨ s.pc = IdlePc.sendPoll0 ∨ s.pc = IdlePc.exited) := by
  induction h with
  | refl => exact ⟨rfl, rfl, rfl, Or.inl rfl⟩
  | tail a b ha hab ih =>
    cases hab with
    | armOk s t k => exact ⟨ih.1, ih.2.1, ih.2.2.1, Or.inr (Or.inl rfl)⟩
    | armErr s t k => exact ⟨ih.1, ih.2.1, ih.2.2.1, Or.inr (Or.inr rfl)⟩
    | mkTickerStep s k =>
      rcases ih.2.2.2 with h' | h' | h' <;> simp at h'
    | pollLoop s t k =>
      rcases ih.2.2.2 with h' | h' | h' <;> simp at h'
    | pollExit s t k =>
      rcases ih.2.2.2 with h' | h' | h' <;> simp at h'
    | tickerFires p s k =>
      have ht := ih.2.1
      simp at ht
    | resetLoop s t k =>
      rcases ih.2.2.2 with h' | h' | h' <;> simp at h'
    | resetExit s t k =>
      rcases ih.2.2.2 with h' | h' | h' <;> simp at h'

/-- Claim C9 (code bug): the `idle` goroutine never reaches its select loop —
it blocks forever at the initial send `poll <- 0` on the unbuffered local
channel (fromEmail.go line 71), whose only receiver is further down the same
goroutine; the blocked state has no successor, so no poll tick is ever
serviced and no fetch or reset ever happens. -/
theorem C9_idle_never_reaches_loop :
    (∀ s : IdleSys, IdleReach s → s.pc ≠ IdlePc.selectLoop)
    ∧ ¬ ∃ u, IdleStep (IdleSys.mk IdlePc.sendPoll0 0 false 0) u := by
  constructor
  · intro s hs hpc
    rcases (idleReach_blocked s hs).2.2.2 with h' | h' | h' <;> rw [hpc] at h' <;>
      simp at h'
  · rintro ⟨u, hu⟩
    cases hu

/-- Claim C9, witness: the initial state is reachable and not at the select
loop. -/
theorem C9_idle_never_reaches_loop_witness :
    IdleReach idleInit ∧ idleInit.pc ≠ IdlePc.selectLoop :=
  ⟨IdleReach.refl, C9_idle_never_reaches_loop.1 idleInit IdleReach.refl⟩

end FromEmailSpec
